import Mathlib

/-!
Verification of the `dirty` templating library (src/dirty/__init__.py)
against its natural-language specification.

The embedding below is a shallow model of the library's core:

- `cgiEscape` models Python's `cgi.escape(s)` as called by the library:
  the library always calls it with its default `quote=False`, so only
  `&`, `<`, `>` are replaced (NOT the double quote).
- `Tag` models the `Tag` class: a name plus the two rendering options the
  renderer reads, `shorten_empty_tag` (default true, via
  `options.get("shorten_empty_tag", True)`) and `cdata_section`
  (default false, via `options.get("cdata_section")`).
- `PyVal` models the universe of Python values that the library's code
  paths inspect when handed as positional arguments / children:
  `Tag` instances, `str`, `RawString`, `Element`, lists (standing for any
  re-iterable iterable), `None`, and `int` (standing for any value that is
  neither a string, a RawString, `None`, nor iterable).
- `AVal` models attribute values: `None`, a string, or an int; `pyStrA`
  is Python's `str()` on these.
- `elementInit` models `Element.__init__` (dict filtering, popping the
  tag, the type checks and their exact error messages, merging positional
  dicts into the keyword attributes, and the normalizing/None-dropping
  dict comprehension). Python dicts are modelled as insertion-ordered
  association lists (`dictInsert` keeps the position of an existing key
  and appends a new one, exactly like CPython dicts).
- `emitChild`/`emitList` model `Element.flat_children` fused with the
  leaf handling of `Element.__iter__`: strings and RawStrings (including
  Elements, which subclass RawString) are leaves; `None` is skipped; any
  other value reaches `for child in (seq or self.children)`. A *truthy*
  non-iterable value (a non-zero int, a `Tag` — Tags define no
  `__bool__`/`__len__`, so they are always truthy) is picked by the `or`
  and iterating it raises `TypeError`, modelled as `FlatErr.typeErr`. A
  *falsy* child — an empty list, or a falsy non-iterable such as the int
  `0` or `False` — makes the `or` fall back to `self.children`: the code
  re-flattens the whole children list in its place and recurses without
  bound (RecursionError); this divergence is modelled as
  `FlatErr.recursionErr`.
- `serializeElem` models `Element.__iter__`'s fragment sequence as a
  list (pure, eager; an error discards the whole sequence where the
  generator would deliver the prefix first — the claims settled here do
  not depend on that prefix). `elemStr` models `Element.__str__`.
-/

namespace Dirty

/-- Python `cgi.escape` on one character, with the library's
`quote=False` default: `&`, `<`, `>` are replaced, `"` is NOT. -/
def escapeChar (c : Char) : List Char :=
  if c = '&' then "&amp;".data
  else if c = '<' then "&lt;".data
  else if c = '>' then "&gt;".data
  else [c]

/-- `cgi.escape(s)` as the library calls it (quote=False). The chained
`str.replace` calls of the CPython implementation never re-scan inserted
text, so they coincide with this single per-character pass. -/
def cgiEscape (s : String) : String :=
  String.mk (s.data.map escapeChar).flatten

/-- Attribute value: `None`, a string, or an int (standing for any
non-None value with an obvious `str()` form). -/
inductive AVal where
  | anone
  | astr (s : String)
  | aint (n : Int)
  deriving DecidableEq, Repr

/-- Python `str()` on an attribute value (line 303: `str(value)`). -/
def pyStrA : AVal → String
  | .astr s => s
  | .aint n => toString n
  | .anone => "None"

/-- The `Tag` class: a name plus the two options the renderer reads. -/
structure Tag where
  name : String
  shorten_empty_tag : Bool := true
  cdata_section : Bool := false
  deriving DecidableEq, Repr

/-- Python values handled by `Element.__init__` / `flat_children`:
`vint n` stands for any value that is neither a string, a RawString,
`None`, nor iterable, with Python truthiness `n ≠ 0` (so `vint 0` also
covers `False`); `vlist` stands for any (re-iterable) iterable. -/
inductive PyVal where
  | vtag (t : Tag)
  | vstr (s : String)
  | vraw (fragments : List String)
  | velem (t : Tag) (children : List PyVal) (attributes : List (String × AVal))
  | vlist (items : List PyVal)
  | vnone
  | vint (n : Int)

/-- Python `type(x).__name__` for the modelled values (used by the
`"expected Tag, but given %s"` message on line 236). -/
def pyTypeName : PyVal → String
  | .vtag _ => "Tag"
  | .vstr _ => "str"
  | .vraw _ => "RawString"
  | .velem _ _ _ => "Element"
  | .vlist _ => "list"
  | .vnone => "NoneType"
  | .vint _ => "int"

/-- An `Element` as built by `Element.__init__`: tag, remaining
positional non-dict values, and the normalized attribute dict. -/
structure Elem where
  tag : Tag
  children : List PyVal
  attributes : List (String × AVal)

/-- A positional argument to `Element.__init__`: either a `dict`
(mapping) or any other value. -/
inductive Arg where
  | mapping (entries : List (String × AVal))
  | value (v : PyVal)

/-- Line 229: `list(c for c in children if not isinstance(c, dict))`. -/
def nonDictArgs (args : List Arg) : List PyVal :=
  args.filterMap fun a => match a with
    | .value v => some v
    | .mapping _ => none

/-- The mappings among the positional arguments, in order
(lines 237-239 iterate `children` and collect the dicts). -/
def mappingArgs (args : List Arg) : List (List (String × AVal)) :=
  args.filterMap fun a => match a with
    | .mapping m => some m
    | .value _ => none

/-- Insertion into an insertion-ordered dict (CPython semantics): an
existing key keeps its position and gets the new value; a new key is
appended. -/
def dictInsert (d : List (String × AVal)) (k : String) (v : AVal) :
    List (String × AVal) :=
  if d.any fun p => p.1 = k then
    d.map fun p => if p.1 = k then (k, v) else p
  else d ++ [(k, v)]

/-- `d.update(m)` on insertion-ordered dicts (line 239). -/
def dictUpdate (d : List (String × AVal)) (m : List (String × AVal)) :
    List (String × AVal) :=
  m.foldl (fun acc p => dictInsert acc p.1 p.2) d

/-- `name.strip("_")`: remove all leading and trailing underscores. -/
def stripUnderscores (s : String) : String :=
  String.mk (((s.data.dropWhile fun c => c = '_').reverse.dropWhile
    fun c => c = '_').reverse)

/-- Line 240: `name.strip("_").replace("_", "-")`. -/
def normalizeKey (s : String) : String :=
  String.mk ((stripUnderscores s).data.map fun c =>
    if c = '_' then '-' else c)

/-- Lines 240-242: `dict((name.strip("_").replace("_", "-"), value) for
name, value in attributes.items() if value is not None)`: iterate the
merged entries in order, drop `None` values, insert normalized keys. -/
def buildAttrs (entries : List (String × AVal)) : List (String × AVal) :=
  entries.foldl
    (fun acc p =>
      match p.2 with
      | .anone => acc
      | v => dictInsert acc (normalizeKey p.1) v)
    []

/-- `Element.__init__` (lines 229-242): filter dicts out of the
positional arguments, pop the first remaining value as the tag (error
`"missing tag"` if none), check it is a `Tag` (error
`"expected Tag, but given <typename>"` otherwise), merge the positional
dicts into the keyword attributes in order, then normalize. -/
def elementInit (args : List Arg) (kwattrs : List (String × AVal)) :
    Except String Elem :=
  match nonDictArgs args with
  | [] => Except.error "missing tag"
  | first :: rest =>
    match first with
    | .vtag t =>
        Except.ok
          { tag := t
            children := rest
            attributes :=
              buildAttrs ((mappingArgs args).foldl dictUpdate kwattrs) }
    | v => Except.error ("expected Tag, but given " ++ pyTypeName v)

/-- `Tag.__call__` (line 163-164): `Element(self, *children, **attributes)`. -/
def tagCall (t : Tag) (args : List Arg) (kwattrs : List (String × AVal)) :
    Except String Elem :=
  elementInit (Arg.value (PyVal.vtag t) :: args) kwattrs

/-- Runtime failures of serialization: `typeErr ty` models the
`TypeError` Python raises when iterating a non-iterable child of type
`ty`; `recursionErr` models the unbounded recursion caused by an empty
iterable child (the `seq or self.children` fallback on line 246). -/
inductive FlatErr where
  | typeErr (ty : String)
  | recursionErr
  deriving DecidableEq, Repr

/-- One attribute fragment (line 303):
`' %s="%s"' % (name, cgi.escape(str(value)))`. -/
def attrFrag (p : String × AVal) : String :=
  " " ++ p.1 ++ "=\"" ++ cgiEscape (pyStrA p.2) ++ "\""

mutual

/-- Fragments contributed by one child value, under the enclosing tag's
`cdata_section` flag. Mirrors `flat_children` (lines 244-251) fused
with the per-leaf handling of `__iter__` (lines 306-316):
a `str` leaf is CDATA-wrapped or escaped; a RawString leaf yields its
fragments verbatim; an Element leaf (Element subclasses RawString, so
`isinstance(child, (str, RawString))` treats it as a leaf) is iterated,
which runs its own `__iter__`; `None` yields nothing; every other child
`c` reaches `for child in (c or self.children)`. A non-empty iterable
is truthy and is recursed into. A falsy child — the empty list, or a
falsy non-iterable like the int `0` — makes the `or` fall back to
`self.children`, so the code re-flattens the whole children list in its
place and recurses forever (`recursionErr`). A truthy non-iterable — a
non-zero int, or a `Tag`, which defines no `__bool__`/`__len__` and is
therefore always truthy — is kept by the `or` and iterating it raises
`TypeError` (`typeErr`). -/
def emitChild (cdata : Bool) : PyVal → Except FlatErr (List String)
  | .vstr s =>
      if cdata then Except.ok ["<![CDATA[", s, "]]>"]
      else Except.ok [cgiEscape s]
  | .vraw fragments => Except.ok fragments
  | .velem t cs attrs =>
      match cs with
      | [] =>
          Except.ok (("<" ++ t.name) :: attrs.map attrFrag ++
            [if t.shorten_empty_tag then " />" else "></" ++ t.name ++ ">"])
      | c :: rest =>
          match emitList t.cdata_section (c :: rest) with
          | Except.error e => Except.error e
          | Except.ok body =>
              Except.ok (("<" ++ t.name) :: attrs.map attrFrag ++
                [">"] ++ body ++ ["</" ++ t.name ++ ">"])
  | .vlist [] => Except.error FlatErr.recursionErr
  | .vlist (c :: rest) => emitList cdata (c :: rest)
  | .vnone => Except.ok []
  | .vint n =>
      if n = 0 then Except.error FlatErr.recursionErr
      else Except.error (FlatErr.typeErr "int")
  | .vtag _ => Except.error (FlatErr.typeErr "Tag")

/-- Fragments contributed by a list of children, in order. -/
def emitList (cdata : Bool) : List PyVal → Except FlatErr (List String)
  | [] => Except.ok []
  | c :: rest =>
      match emitChild cdata c with
      | Except.error e => Except.error e
      | Except.ok f =>
          match emitList cdata rest with
          | Except.error e => Except.error e
          | Except.ok r => Except.ok (f ++ r)

end

/-- `Element.__iter__` (lines 253-322) as a fragment list: `"<" + name`,
one fragment per attribute in dict order, then either the children
block between `">"` and `"</name>"`, or the empty-element ending. -/
def serializeElem (e : Elem) : Except FlatErr (List String) :=
  emitChild false (PyVal.velem e.tag e.children e.attributes)

/-- `Element.__str__` (line 332): `"".join(self)`. -/
def elemStr (e : Elem) : Except FlatErr String :=
  (serializeElem e).map String.join

/-- `__iter__` threaded through the element "state": the method only
reads `self.tag`, `self.children`, `self.attributes` and never assigns,
so the element after iteration is the element before. -/
def serializeSt (e : Elem) : Except FlatErr (List String) × Elem :=
  (serializeElem e, e)

mutual

/-- Children on which serialization cannot fail: strings, RawStrings,
`None`, nested Elements with good children, and non-empty lists of good
values. -/
def goodVal : PyVal → Bool
  | .vstr _ => true
  | .vraw _ => true
  | .vnone => true
  | .velem _ cs _ => goodList cs
  | .vlist cs => !cs.isEmpty && goodList cs
  | .vint _ => false
  | .vtag _ => false

/-- All values in the list are good. -/
def goodList : List PyVal → Bool
  | [] => true
  | c :: rest => goodVal c && goodList rest

end

/-- No positional argument is a mapping. -/
def noMappings (args : List Arg) : Bool :=
  args.all fun a => match a with
    | .mapping _ => false
    | .value _ => true

/-- The example tag used for concrete evaluations. -/
def divT : Tag := { name := "div" }

/-- The example tag with default options, named `p`. -/
def pT : Tag := { name := "p" }

/-! ### Helper lemmas -/

theorem mem_dictInsert {d : List (String × AVal)} {k : String} {v : AVal}
    {q : String × AVal} (h : q ∈ dictInsert d k v) : q ∈ d ∨ q = (k, v) := by
  unfold dictInsert at h
  split at h
  · obtain ⟨p, hp, hq⟩ := List.mem_map.1 h
    by_cases hk : p.1 = k
    · rw [if_pos hk] at hq
      exact Or.inr hq.symm
    · rw [if_neg hk] at hq
      exact Or.inl (hq ▸ hp)
  · rcases List.mem_append.1 h with h | h
    · exact Or.inl h
    · exact Or.inr (by simpa using h)

theorem mem_buildAttrs_go {entries acc : List (String × AVal)}
    {q : String × AVal}
    (h : q ∈ entries.foldl
      (fun acc p =>
        match p.2 with
        | AVal.anone => acc
        | v => dictInsert acc (normalizeKey p.1) v)
      acc) :
    q ∈ acc ∨ ∃ p ∈ entries, q.1 = normalizeKey p.1 ∧ q.2 = p.2 ∧
      p.2 ≠ AVal.anone := by
  induction entries generalizing acc with
  | nil => exact Or.inl h
  | cons p rest ih =>
    rw [List.foldl_cons] at h
    rcases ih h with hacc | ⟨p', hp', hq⟩
    · match hv : p.2 with
      | AVal.anone =>
        rw [hv] at hacc
        exact Or.inl hacc
      | AVal.astr s =>
        rw [hv] at hacc
        rcases mem_dictInsert hacc with h1 | h1
        · exact Or.inl h1
        · exact Or.inr ⟨p, List.mem_cons_self _ _,
            by simp [h1, hv]⟩
      | AVal.aint n =>
        rw [hv] at hacc
        rcases mem_dictInsert hacc with h1 | h1
        · exact Or.inl h1
        · exact Or.inr ⟨p, List.mem_cons_self _ _,
            by simp [h1, hv]⟩
    · exact Or.inr ⟨p', List.mem_cons_of_mem _ hp', hq⟩

theorem mem_buildAttrs {entries : List (String × AVal)} {q : String × AVal}
    (h : q ∈ buildAttrs entries) :
    ∃ p ∈ entries, q.1 = normalizeKey p.1 ∧ q.2 = p.2 ∧ p.2 ≠ AVal.anone := by
  rcases mem_buildAttrs_go h with h | h
  · simp at h
  · exact h

theorem nonDictArgs_append (xs ys : List Arg) :
    nonDictArgs (xs ++ ys) = nonDictArgs xs ++ nonDictArgs ys := by
  simp [nonDictArgs, List.filterMap_append]

theorem mappingArgs_append (xs ys : List Arg) :
    mappingArgs (xs ++ ys) = mappingArgs xs ++ mappingArgs ys := by
  simp [mappingArgs, List.filterMap_append]

theorem mappingArgs_eq_nil {args : List Arg} (h : noMappings args = true) :
    mappingArgs args = [] := by
  induction args with
  | nil => rfl
  | cons a rest ih =>
    match a with
    | Arg.mapping m => simp [noMappings] at h
    | Arg.value v =>
      have : noMappings rest = true := by simpa [noMappings] using h
      simpa [mappingArgs, List.filterMap_cons] using ih this

mutual

theorem emitChild_good : ∀ (cdata : Bool) (v : PyVal), goodVal v = true →
    ∃ l, emitChild cdata v = Except.ok l
  | cdata, .vstr s, _ => by
    cases cdata
    · exact ⟨[cgiEscape s], by simp [emitChild]⟩
    · exact ⟨["<![CDATA[", s, "]]>"], by simp [emitChild]⟩
  | _, .vraw fs, _ => ⟨fs, by simp [emitChild]⟩
  | _, .vnone, _ => ⟨[], by simp [emitChild]⟩
  | cdata, .velem t cs attrs, h => by
    cases cs with
    | nil =>
      exact ⟨("<" ++ t.name) :: attrs.map attrFrag ++
        [if t.shorten_empty_tag then " />" else "></" ++ t.name ++ ">"],
        by simp [emitChild]⟩
    | cons c rest =>
      have hg : goodList (c :: rest) = true := by simpa [goodVal] using h
      obtain ⟨body, hb⟩ := emitList_good t.cdata_section (c :: rest) hg
      exact ⟨("<" ++ t.name) :: attrs.map attrFrag ++ [">"] ++ body ++
        ["</" ++ t.name ++ ">"], by simp [emitChild, hb]⟩
  | cdata, .vlist cs, h => by
    cases cs with
    | nil => simp [goodVal] at h
    | cons c rest =>
      have hg : goodList (c :: rest) = true := by
        simpa [goodVal] using h
      obtain ⟨l, hl⟩ := emitList_good cdata (c :: rest) hg
      exact ⟨l, by simpa [emitChild] using hl⟩
  | _, .vint n, h => by simp [goodVal] at h
  | _, .vtag t, h => by simp [goodVal] at h

theorem emitList_good : ∀ (cdata : Bool) (vs : List PyVal),
    goodList vs = true → ∃ l, emitList cdata vs = Except.ok l
  | _, [], _ => ⟨[], by simp [emitList]⟩
  | cdata, c :: rest, h => by
    have h1 : goodVal c = true := by
      have := h
      simp [goodList, Bool.and_eq_true] at this
      exact this.1
    have h2 : goodList rest = true := by
      have := h
      simp [goodList, Bool.and_eq_true] at this
      exact this.2
    obtain ⟨f, hf⟩ := emitChild_good cdata c h1
    obtain ⟨r, hr⟩ := emitList_good cdata rest h2
    exact ⟨f ++ r, by simp [emitList, hf, hr]⟩

end

/-! ### Claim theorems -/

/-- C2, code evaluated at the failing input: the renderer escapes `&`,
`<` and `>` in attribute values, but it calls `cgi.escape` with its
default `quote=False`, so a double quote in an attribute value is
emitted verbatim inside the double-quoted attribute fragment instead of
as `&quot;`. -/
theorem c2_quote_unescaped :
    cgiEscape "&" = "&amp;" ∧ cgiEscape "<" = "&lt;" ∧
    cgiEscape ">" = "&gt;" ∧ cgiEscape "\"" = "\"" ∧
    (∀ (n : String) (v : AVal),
      attrFrag (n, v) = " " ++ n ++ "=\"" ++ cgiEscape (pyStrA v) ++ "\"") ∧
    serializeElem ⟨divT, [], [("x", AVal.astr "a\"b")]⟩ =
      Except.ok ["<div", " x=\"a\"b\"", " />"] ∧
    (" x=\"a\"b\"" : String) ≠ " x=\"a&quot;b\"" := by
  refine ⟨by decide, by decide, by decide, by decide, fun n v => rfl, ?_, by decide⟩
  simp [serializeElem, emitChild, attrFrag, cgiEscape, escapeChar, pyStrA, divT]

/-- C4, code evaluated at the failing input: an element whose only
child is an empty iterable. The claim (and the evident intent of the
`seq=None` default parameter of `flat_children`) is that an empty
iterable is drained, yields nothing, and serialization proceeds to the
closing tag; instead the source's `for child in (seq or self.children)`
treats the empty (falsy) sequence as absent, re-flattens the whole
children list in its place, and recurses without bound
(`RecursionError`), modelled as `FlatErr.recursionErr`. -/
theorem c4_empty_iterable_diverges :
    tagCall pT [Arg.value (PyVal.vlist [])] [] =
      Except.ok ⟨pT, [PyVal.vlist []], []⟩ ∧
    serializeElem ⟨pT, [PyVal.vlist []], []⟩ =
      Except.error FlatErr.recursionErr ∧
    emitChild false (PyVal.vlist []) = Except.error FlatErr.recursionErr := by
  refine ⟨rfl, ?_, ?_⟩ <;> simp [serializeElem, emitChild, emitList]

/-- C5 (confirmed): with an empty original children list the output is
the opening fragment, the attribute fragments, and then `" />"` when
`shorten_empty_tag` (the default) and `"></name>"` otherwise; with a
non-empty original children list — even one containing only `None`,
which flattens to zero leaves — the output is instead `">"`, the
children fragments, and `"</name>"`. -/
theorem c5_empty_tag_ending :
    (∀ (t : Tag) (attrs : List (String × AVal)),
      serializeElem ⟨t, [], attrs⟩ =
        Except.ok (("<" ++ t.name) :: attrs.map attrFrag ++
          [if t.shorten_empty_tag then " />" else "></" ++ t.name ++ ">"])) ∧
    (∀ (t : Tag) (attrs : List (String × AVal)) (c : PyVal) (cs : List PyVal),
      serializeElem ⟨t, c :: cs, attrs⟩ =
        (emitList t.cdata_section (c :: cs)).map fun body =>
          ("<" ++ t.name) :: attrs.map attrFrag ++ [">"] ++ body ++
            ["</" ++ t.name ++ ">"]) ∧
    (∀ (t : Tag) (attrs : List (String × AVal)),
      serializeElem ⟨t, [PyVal.vnone], attrs⟩ =
        Except.ok (("<" ++ t.name) :: attrs.map attrFrag ++
          [">", "</" ++ t.name ++ ">"])) := by
  refine ⟨fun t attrs => ?_, fun t attrs c cs => ?_, fun t attrs => ?_⟩
  · simp [serializeElem, emitChild]
  · cases h : emitList t.cdata_section (c :: cs) <;>
      simp [serializeElem, emitChild, h, Except.map]
  · simp [serializeElem, emitChild, emitList]

/-- C3 counterexample: a successfully constructed Element whose child
is the integer `123` — a non-mapping, non-None value with an obvious
string form — raises an error during iteration (`123` is truthy, so
`123 or self.children` keeps it and iterating it raises `TypeError`),
because `flat_children` only treats `str` and `RawString` as leaves. -/
theorem c3_counterexample :
    elementInit [Arg.value (PyVal.vtag pT), Arg.value (PyVal.vint 123)] [] =
      Except.ok ⟨pT, [PyVal.vint 123], []⟩ ∧
    serializeElem ⟨pT, [PyVal.vint 123], []⟩ =
      Except.error (FlatErr.typeErr "int") := by
  refine ⟨rfl, ?_⟩
  simp [serializeElem, emitChild, emitList]

/-- C3 (corrected): iteration of a successfully constructed Element
raises no error provided every value in its child tree is a string, a
RawString, `None`, a nested Element (with such children), or a
non-empty iterable of such values; a child that is none of these
errors at the point it is pulled — with a `TypeError` when the value is
truthy (a non-zero int), and with the `seq or self.children` fallback's
unbounded recursion (`RecursionError`) when it is falsy (the int 0, or
`False`). -/
theorem c3_amended :
    (∀ e : Elem, goodList e.children = true →
      ∃ l, serializeElem e = Except.ok l) ∧
    (∀ (t : Tag) (attrs : List (String × AVal)) (n : Int), n ≠ 0 →
      serializeElem ⟨t, [PyVal.vint n], attrs⟩ =
        Except.error (FlatErr.typeErr "int")) ∧
    (∀ (t : Tag) (attrs : List (String × AVal)),
      serializeElem ⟨t, [PyVal.vint 0], attrs⟩ =
        Except.error FlatErr.recursionErr) := by
  refine ⟨?_, ?_, ?_⟩
  · intro e h
    exact emitChild_good false (PyVal.velem e.tag e.children e.attributes)
      (by simpa [goodVal] using h)
  · intro t attrs n h
    simp [serializeElem, emitChild, emitList, h]
  · intro t attrs
    simp [serializeElem, emitChild, emitList]

/-- C3 witness: a concrete good tree serializes without error, a
truthy int child gives the type error, a falsy int child gives the
unbounded recursion. -/
theorem c3_witness :
    goodList [PyVal.vstr "x"] = true ∧
    (∃ l, serializeElem ⟨pT, [PyVal.vstr "x"], []⟩ = Except.ok l) ∧
    ((123 : Int) ≠ 0) ∧
    serializeElem ⟨pT, [PyVal.vint 123], []⟩ =
      Except.error (FlatErr.typeErr "int") ∧
    serializeElem ⟨pT, [PyVal.vint 0], []⟩ =
      Except.error FlatErr.recursionErr :=
  ⟨by simp [goodList, goodVal],
   c3_amended.1 ⟨pT, [PyVal.vstr "x"], []⟩ (by simp [goodList, goodVal]),
   by decide,
   c3_amended.2.1 pT [] 123 (by decide),
   c3_amended.2.2 pT []⟩

/-- C1 counterexample: attributes supplied in the order `b`, `a` are
emitted in that order, `b`'s fragment first, although `"a" < "b"` in
code-point order — the renderer iterates the attributes dict in
insertion order and never sorts. -/
theorem c1_counterexample :
    tagCall divT [] [("b", AVal.astr "1"), ("a", AVal.astr "2")] =
      Except.ok ⟨divT, [], [("b", AVal.astr "1"), ("a", AVal.astr "2")]⟩ ∧
    serializeElem ⟨divT, [], [("b", AVal.astr "1"), ("a", AVal.astr "2")]⟩ =
      Except.ok ["<div", " b=\"1\"", " a=\"2\"", " />"] ∧
    serializeElem ⟨divT, [], [("b", AVal.astr "1"), ("a", AVal.astr "2")]⟩ ≠
      Except.ok ["<div", " a=\"2\"", " b=\"1\"", " />"] ∧
    ("a" : String) < "b" := by
  have h : serializeElem ⟨divT, [], [("b", AVal.astr "1"),
      ("a", AVal.astr "2")]⟩ =
      Except.ok ["<div", " b=\"1\"", " a=\"2\"", " />"] := by
    simp [serializeElem, emitChild, attrFrag, cgiEscape, escapeChar,
      pyStrA, divT]
  refine ⟨rfl, h, ?_, by rw [String.lt_iff_toList_lt] ; decide⟩
  intro hc
  rw [h] at hc
  exact absurd (Except.ok.inj hc) (by decide)

/-- C1 (corrected): serialization emits the attribute fragments
immediately after the opening fragment in the insertion order of the
element's attributes mapping (keyword-argument order, keys merged from
positional mappings at their first occurrence), not sorted by name. -/
theorem c1_attr_insertion_order :
    (∀ (t : Tag) (attrs : List (String × AVal)) (cs : List PyVal),
      (∃ err, serializeElem ⟨t, cs, attrs⟩ = Except.error err) ∨
      (∃ tail, serializeElem ⟨t, cs, attrs⟩ =
        Except.ok (("<" ++ t.name) :: attrs.map attrFrag ++ tail))) ∧
    tagCall divT [] [("b", AVal.astr "1"), ("a", AVal.astr "2")] =
      Except.ok ⟨divT, [], [("b", AVal.astr "1"), ("a", AVal.astr "2")]⟩ ∧
    serializeElem ⟨divT, [], [("b", AVal.astr "1"), ("a", AVal.astr "2")]⟩ =
      Except.ok ["<div", " b=\"1\"", " a=\"2\"", " />"] := by
  refine ⟨fun t attrs cs => ?_, rfl, ?_⟩
  · cases cs with
    | nil =>
      exact Or.inr ⟨[if t.shorten_empty_tag then " />"
        else "></" ++ t.name ++ ">"], by simp [serializeElem, emitChild]⟩
    | cons c rest =>
      cases h : emitList t.cdata_section (c :: rest) with
      | error err =>
        exact Or.inl ⟨err, by simp [serializeElem, emitChild, h]⟩
      | ok body =>
        exact Or.inr ⟨[">"] ++ body ++ ["</" ++ t.name ++ ">"],
          by simp [serializeElem, emitChild, h]⟩
  · simp [serializeElem, emitChild, attrFrag, cgiEscape, escapeChar,
      pyStrA, divT]

/-- C7 counterexample: with the single positional argument `"div"` (a
string — so no Tag is supplied at all), the raised message is
`"expected Tag, but given str"`, which is neither the claim's
`"expected Tag, got str"` wording nor the `"missing tag"` its
no-Tag-supplied condition predicts. -/
theorem c7_counterexample :
    elementInit [Arg.value (PyVal.vstr "div")] [] =
      Except.error "expected Tag, but given str" ∧
    ("expected Tag, but given str" : String) ≠ "expected Tag, got str" ∧
    ("expected Tag, but given str" : String) ≠ "missing tag" :=
  ⟨rfl, by decide, by decide⟩

/-- C7 (corrected): construction fails exactly when the positional
arguments contain no non-mapping value at all (error `"missing tag"`)
or when the first non-mapping positional value is not a Tag (error
`"expected Tag, but given <type>"` naming the offending type);
otherwise it succeeds, yielding the tag, the remaining non-mapping
values as children, and the merged, normalized attributes. -/
theorem c7_construction (args : List Arg) (kwattrs : List (String × AVal)) :
    (nonDictArgs args = [] →
      elementInit args kwattrs = Except.error "missing tag") ∧
    (∀ (v : PyVal) (rest : List PyVal), nonDictArgs args = v :: rest →
      (∀ t, v ≠ PyVal.vtag t) →
      elementInit args kwattrs =
        Except.error ("expected Tag, but given " ++ pyTypeName v)) ∧
    (∀ (t : Tag) (rest : List PyVal),
      nonDictArgs args = PyVal.vtag t :: rest →
      elementInit args kwattrs = Except.ok
        ⟨t, rest, buildAttrs ((mappingArgs args).foldl dictUpdate kwattrs)⟩) := by
  refine ⟨fun h => ?_, fun v rest h hv => ?_, fun t rest h => ?_⟩
  · unfold elementInit
    rw [h]
  · unfold elementInit
    rw [h]
    cases v with
    | vtag t => exact absurd rfl (hv t)
    | vstr s => rfl
    | vraw fs => rfl
    | velem t cs attrs => rfl
    | vlist items => rfl
    | vnone => rfl
    | vint n => rfl
  · unfold elementInit
    rw [h]

/-- C7 witness: the three construction outcomes at concrete inputs. -/
theorem c7_witness :
    elementInit [] [] = Except.error "missing tag" ∧
    elementInit [Arg.value PyVal.vnone] [] =
      Except.error ("expected Tag, but given " ++ pyTypeName PyVal.vnone) ∧
    elementInit [Arg.value (PyVal.vtag divT)] [] =
      Except.ok ⟨divT, [],
        buildAttrs ((mappingArgs [Arg.value (PyVal.vtag divT)]).foldl
          dictUpdate [])⟩ :=
  ⟨(c7_construction [] []).1 rfl,
   (c7_construction [Arg.value PyVal.vnone] []).2.1 PyVal.vnone [] rfl
     (fun _ h => PyVal.noConfusion h),
   (c7_construction [Arg.value (PyVal.vtag divT)] []).2.2 divT [] rfl⟩

/-- C8 (confirmed): a positional mapping merges into the attributes
(after the keyword attributes) instead of appearing among the children,
`tag("text", {"class": "c"})` builds the same Element as
`tag("text", class_="c")`, and every attribute key is normalized by
stripping leading/trailing underscores and replacing the remaining
underscores with hyphens. -/
theorem c8_mapping_merge :
    (∀ t : Tag,
      tagCall t [Arg.value (PyVal.vstr "text"),
          Arg.mapping [("class", AVal.astr "c")]] [] =
        tagCall t [Arg.value (PyVal.vstr "text")]
          [("class_", AVal.astr "c")]) ∧
    normalizeKey "class_" = "class" ∧
    normalizeKey "attr_name" = "attr-name" ∧
    (∀ (args : List Arg) (kwattrs m : List (String × AVal)),
      noMappings args = true →
      elementInit (args ++ [Arg.mapping m]) kwattrs =
        elementInit args (dictUpdate kwattrs m)) ∧
    (∀ (args : List Arg) (kwattrs : List (String × AVal)) (e : Elem),
      elementInit args kwattrs = Except.ok e →
      e.children = (nonDictArgs args).drop 1) ∧
    (∀ (entries : List (String × AVal)) (q : String × AVal),
      q ∈ buildAttrs entries → ∃ p ∈ entries, q.1 = normalizeKey p.1) := by
  refine ⟨fun t => rfl, by decide, by decide, ?_, ?_, ?_⟩
  · intro args kwattrs m h
    have hm : mappingArgs args = [] := mappingArgs_eq_nil h
    have h1 : nonDictArgs (args ++ [Arg.mapping m]) = nonDictArgs args := by
      rw [nonDictArgs_append]
      simp [nonDictArgs]
    have h2 : mappingArgs (args ++ [Arg.mapping m]) = [m] := by
      rw [mappingArgs_append, hm]
      rfl
    unfold elementInit
    rw [h1, h2, hm]
    cases hnd : nonDictArgs args with
    | nil => rfl
    | cons v rest => cases v <;> rfl
  · intro args kwattrs e h
    unfold elementInit at h
    cases hnd : nonDictArgs args with
    | nil =>
      rw [hnd] at h
      exact absurd h (by simp)
    | cons v rest =>
      rw [hnd] at h
      cases v with
      | vtag t =>
        have := Except.ok.inj h
        rw [← this]
        simp
      | vstr s => exact absurd h (by simp)
      | vraw fs => exact absurd h (by simp)
      | velem t cs attrs => exact absurd h (by simp)
      | vlist items => exact absurd h (by simp)
      | vnone => exact absurd h (by simp)
      | vint n => exact absurd h (by simp)
  · intro entries q h
    obtain ⟨p, hp, h1, _⟩ := mem_buildAttrs h
    exact ⟨p, hp, h1⟩

/-- C8 witness: the merge equation, the children shape and the
key-normalization facts at concrete inputs. -/
theorem c8_witness :
    elementInit ([Arg.value (PyVal.vtag divT)] ++
        [Arg.mapping [("a", AVal.astr "1")]]) [] =
      elementInit [Arg.value (PyVal.vtag divT)]
        (dictUpdate [] [("a", AVal.astr "1")]) ∧
    (Elem.children ⟨divT, [PyVal.vstr "x"], []⟩ =
      (nonDictArgs [Arg.value (PyVal.vtag divT),
        Arg.value (PyVal.vstr "x")]).drop 1) ∧
    ∃ p ∈ [("class_", AVal.astr "c")],
      Prod.fst ("class", AVal.astr "c") = normalizeKey p.1 :=
  ⟨c8_mapping_merge.2.2.2.1 [Arg.value (PyVal.vtag divT)] []
     [("a", AVal.astr "1")] rfl,
   c8_mapping_merge.2.2.2.2.1
     [Arg.value (PyVal.vtag divT), Arg.value (PyVal.vstr "x")] []
     ⟨divT, [PyVal.vstr "x"], []⟩ rfl,
   c8_mapping_merge.2.2.2.2.2 [("class_", AVal.astr "c")]
     ("class", AVal.astr "c") (by decide)⟩

/-- C9 (confirmed): `tag(None, "x", class_=None)` serializes exactly
like `tag("x")`: a None-valued attribute is dropped at construction (no
key of the built attributes mapping carries a None value) and a None
child contributes no fragments. -/
theorem c9_none_filtering (t : Tag) :
    tagCall t [Arg.value PyVal.vnone, Arg.value (PyVal.vstr "x")]
      [("class_", AVal.anone)] =
      Except.ok ⟨t, [PyVal.vnone, PyVal.vstr "x"], []⟩ ∧
    tagCall t [Arg.value (PyVal.vstr "x")] [] =
      Except.ok ⟨t, [PyVal.vstr "x"], []⟩ ∧
    serializeElem ⟨t, [PyVal.vnone, PyVal.vstr "x"], []⟩ =
      serializeElem ⟨t, [PyVal.vstr "x"], []⟩ ∧
    (∀ (entries : List (String × AVal)) (q : String × AVal),
      q ∈ buildAttrs entries → q.2 ≠ AVal.anone) ∧
    (∀ cdata : Bool, emitChild cdata PyVal.vnone = Except.ok []) := by
  refine ⟨rfl, rfl, ?_, ?_, fun cdata => by simp [emitChild]⟩
  · cases hc : t.cdata_section <;>
      simp [serializeElem, emitChild, emitList, hc]
  · intro entries q h
    obtain ⟨p, _, _, h2, h3⟩ := mem_buildAttrs h
    rw [h2]
    exact h3

/-- C9 witness: the serialization equality at a concrete tag and the
None-dropping invariant at a concrete attribute list. -/
theorem c9_witness :
    serializeElem ⟨pT, [PyVal.vnone, PyVal.vstr "x"], []⟩ =
      serializeElem ⟨pT, [PyVal.vstr "x"], []⟩ ∧
    Prod.snd ("class", AVal.astr "c") ≠ AVal.anone :=
  ⟨(c9_none_filtering pT).2.2.1,
   (c9_none_filtering pT).2.2.2.1
     [("class_", AVal.anone), ("class", AVal.astr "c")]
     ("class", AVal.astr "c") (by decide)⟩

/-- C10 (confirmed): serialization only reads the element (the source's
`__iter__` reads `self.tag`, `self.children`, `self.attributes` and
never assigns), so for the modelled re-iterable child values iterating
or stringifying any number of times yields the identical fragment
sequence and leaves tag, children and attributes unchanged. -/
theorem c10_deterministic (e : Elem) :
    (serializeSt e).2 = e ∧
    (serializeSt ((serializeSt e).2)).1 = (serializeSt e).1 ∧
    elemStr e = (serializeElem e).map String.join ∧
    (serializeSt e).2.tag = e.tag ∧
    (serializeSt e).2.children = e.children ∧
    (serializeSt e).2.attributes = e.attributes :=
  ⟨rfl, rfl, rfl, rfl, rfl, rfl⟩

end Dirty
